import Mathlib

/-!
Shallow embedding of `src/libsmartctl.cpp` (the libsmartctl client facade of
smartmontools): the error catalog `errStr`, the singleton constructor
`Client::Impl::Impl`, the device acquirer `Client::Impl::initDevice`, and the
three public operations `cantIdDev`, `getDevInfo`, `getDevVendorAttrs`.

External collaborators (the device-interface subsystem `smi()`, the drive
database, and the ATA codecs `cant_id`, `get_ata_information`,
`get_ata_vendor_attr`) are modelled as an environment of oracle functions.
Each embedded operation additionally returns the list of collaborator calls it
made, in order, so that claims of the form "collaborator X is never invoked"
become statements about the returned trace.
-/

/-- The closed error enumeration `ctlerr_t`. The enumeration is declared in
`libsmartctl.h`, which is not among the sources; the constructors and their
order are those of the error catalog in `libsmartctl.cpp` (which the spec's
data model lists in the same order). -/
inductive ctlerr_t where
  | NOERR
  | POWERMODEBELOWOPTION
  | FAILEDDEVICEIDREAD
  | FAILEDSMARTCMD
  | GETDEVICERR
  | DEVICEOPENERR
  | UNSUPPORTEDDEVICETYPE
  | CLIENTINITIALIZTIONFAILURE
  deriving DecidableEq, Fintype

open ctlerr_t

/-- Modelled from the spec: the numeric value underlying each `ctlerr_t`
member. `libsmartctl.h` (missing from the sources) declares the enum without
explicit initializers, so members take consecutive values from 0 in the
declaration order given by the spec's data model. -/
def ctlerrCode : ctlerr_t → Nat
  | NOERR => 0
  | POWERMODEBELOWOPTION => 1
  | FAILEDDEVICEIDREAD => 2
  | FAILEDSMARTCMD => 3
  | GETDEVICERR => 4
  | DEVICEOPENERR => 5
  | UNSUPPORTEDDEVICETYPE => 6
  | CLIENTINITIALIZTIONFAILURE => 7

/-- The entries of the `static const std::map<ctlerr_t, std::string> errs`
inside `errStr`, in source order. -/
def errs : List (ctlerr_t × String) :=
  [(NOERR, "No errors"),
   (POWERMODEBELOWOPTION, "The power mode is below the configured option"),
   (FAILEDDEVICEIDREAD, "Device read failure"),
   (FAILEDSMARTCMD, "Test SMART command failed"),
   (GETDEVICERR, "Could not retrieve device information"),
   (DEVICEOPENERR, "Could not open device"),
   (UNSUPPORTEDDEVICETYPE, "Device type is not supported"),
   (CLIENTINITIALIZTIONFAILURE, "libsmartctl client initialization failure")]

/-- `errs.at(err)` on the underlying numeric code: `std::map::at` returns the
mapped string when the key is present and throws `std::out_of_range` otherwise;
the throw is modelled as `none`. Keys compare by the enum's underlying value,
so a raw value outside the enumeration misses every entry. -/
def errStrAt (n : Nat) : Option String :=
  (errs.find? (fun p => ctlerrCode p.1 == n)).map (fun p => p.2)

/-- `const std::string errStr(ctlerr_t err)`: catalog lookup at a value of the
enumeration proper. -/
def errStr (e : ctlerr_t) : Option String :=
  errStrAt (ctlerrCode e)

/-- A device handle as observed by this file: only `is_open` (after
`autodetect_open`) and `is_ata` are inspected by the client. -/
structure Device where
  is_open : Bool
  is_ata : Bool
  deriving DecidableEq

/-- One call to an external collaborator, with the arguments the client
forwards. `getDeviceCall s h` records `smi()->get_smart_device` invoked with
device name `s` and type argument `h` (`none` stands for the `nullptr`
auto-detect request). -/
inductive CallTag where
  | getDeviceCall (devname : String) (ty : Option String)
  | autodetectOpenCall
  | isAtaCall
  | cantIdCall
  | ataInfoCall
  | ataVendorCall
  deriving DecidableEq

/-- Modelled from the spec: the content payload of `DevInfoResp`
(`libsmartctl.h` is missing from the sources); the spec calls it a structured
device-info payload, rendered here as a key/value list with default empty. -/
def DevInfoContent : Type := List (String × String)

instance : DecidableEq DevInfoContent := by
  unfold DevInfoContent
  infer_instance

/-- Modelled from the spec: the content payload of `DevVendorAttrsResp`
(`libsmartctl.h` is missing from the sources); the spec calls it a structured
vendor-attribute payload, rendered here as a list of key/value lists with
default empty. -/
def DevVendorAttrsContent : Type := List (List (String × String))

instance : DecidableEq DevVendorAttrsContent := by
  unfold DevVendorAttrsContent
  infer_instance

/-- Modelled from the spec: `CantIdDevResp` from `libsmartctl.h` (missing from
the sources) — a `Response<bool>`: an error code plus boolean content whose
default is `false`. -/
structure CantIdDevResp where
  err : ctlerr_t := NOERR
  content : Bool := false
  deriving DecidableEq

/-- Modelled from the spec: `DevInfoResp` from `libsmartctl.h` (missing from
the sources) — a `Response<DeviceInfo>` with default (empty) content. -/
structure DevInfoResp where
  err : ctlerr_t := NOERR
  content : DevInfoContent := []
  deriving DecidableEq

/-- Modelled from the spec: `DevVendorAttrsResp` from `libsmartctl.h` (missing
from the sources) — a `Response<VendorAttributes>` with default (empty)
content. -/
structure DevVendorAttrsResp where
  err : ctlerr_t := NOERR
  content : DevVendorAttrsContent := []
  deriving DecidableEq

/-- `ata_print_options`, restricted to the two flags `libsmartctl.cpp` sets;
both default to off. -/
structure ata_print_options where
  drive_info : Bool := false
  smart_vendor_attrib : Bool := false
  deriving DecidableEq

/-- The external world the client calls into: the outcome of
`smart_interface::init()` registering an interface (`smi_ok`), the result of
`init_drive_database false` (`drive_db_ok`), and the collaborator functions
`get_smart_device`, `autodetect_open`, `cant_id`, `get_ata_information`,
`get_ata_vendor_attr`. The two ATA extractors receive the response content by
reference in C++ and return an error code; here each returns the pair
(error code, content as written). -/
structure Env where
  smi_ok : Bool
  drive_db_ok : Bool
  get_smart_device : String → Option String → Option Device
  autodetect_open : Device → Device
  cant_id : Device → Bool
  get_ata_information : Device → ata_print_options → ctlerr_t × DevInfoContent
  get_ata_vendor_attr : Device → ata_print_options → ctlerr_t × DevVendorAttrsContent

/-- The state of `Client::Impl`: the single readiness flag `up_`. -/
structure Impl where
  up : Bool
  deriving DecidableEq

/-- The steps of the `Client::Impl` constructor, for tracing which
initialization stages ran. -/
inductive InitStep where
  | checkConfigStep
  | smartInterfaceInitStep
  | driveDbInitStep
  deriving DecidableEq

/-- `Client::Impl::Impl()`: `check_config()`, then `smart_interface::init()`
followed by the `smi()` registration check — failure sets `up_ = false` and
returns before the database step; then `init_drive_database(false)` — failure
sets `up_ = false`; otherwise `up_ = true`. Returns the resulting state and
the list of steps that ran, in order. -/
def implCtorT (env : Env) : Impl × List InitStep :=
  if env.smi_ok = false then
    ({ up := false }, [InitStep.checkConfigStep, InitStep.smartInterfaceInitStep])
  else if env.drive_db_ok = false then
    ({ up := false },
     [InitStep.checkConfigStep, InitStep.smartInterfaceInitStep, InitStep.driveDbInitStep])
  else
    ({ up := true },
     [InitStep.checkConfigStep, InitStep.smartInterfaceInitStep, InitStep.driveDbInitStep])

/-- `Client::Impl::initDevice`: request a device from `smi()` with the type
hint when non-empty and `nullptr` otherwise; `GETDEVICERR` when no object is
returned; otherwise replace the object by `autodetect_open()`'s result and
fail with `DEVICEOPENERR` when the replacement is not open. Paired with the
trace of collaborator calls. -/
def initDeviceT (env : Env) (devname ty : String) :
    Except ctlerr_t Device × List CallTag :=
  let hint : Option String := if ty ≠ "" then some ty else none
  match env.get_smart_device devname hint with
  | none => (Except.error GETDEVICERR, [CallTag.getDeviceCall devname hint])
  | some d0 =>
    let d := env.autodetect_open d0
    if d.is_open = false then
      (Except.error DEVICEOPENERR,
       [CallTag.getDeviceCall devname hint, CallTag.autodetectOpenCall])
    else
      (Except.ok d, [CallTag.getDeviceCall devname hint, CallTag.autodetectOpenCall])

/-- `Client::Impl::cantIdDev`: fail fast with `CLIENTINITIALIZTIONFAILURE`
when not up; acquire a device; `DEVICEOPENERR` maps to `(NOERR, true)`; other
acquisition failures are propagated with default content; an ATA device
delegates to `cant_id`; a non-ATA device yields `UNSUPPORTEDDEVICETYPE`. -/
def cantIdDevT (c : Impl) (env : Env) (devname ty : String) :
    CantIdDevResp × List CallTag :=
  if c.up = false then
    ({ err := CLIENTINITIALIZTIONFAILURE, content := false }, [])
  else
    match initDeviceT env devname ty with
    | (Except.error DEVICEOPENERR, tr) => ({ err := NOERR, content := true }, tr)
    | (Except.error e, tr) => ({ err := e, content := false }, tr)
    | (Except.ok d, tr) =>
      if d.is_ata then
        ({ err := NOERR, content := env.cant_id d },
         tr ++ [CallTag.isAtaCall, CallTag.cantIdCall])
      else
        ({ err := UNSUPPORTEDDEVICETYPE, content := false }, tr ++ [CallTag.isAtaCall])

/-- The `ata_print_options` bundle `getDevInfo` builds: only `drive_info` set.
(The SCSI and NVMe bundles built alongside it are never read.) -/
def ataoptsInfo : ata_print_options := { drive_info := true }

/-- The `ata_print_options` bundle `getDevVendorAttrs` builds: only
`smart_vendor_attrib` set. -/
def ataoptsVendor : ata_print_options := { smart_vendor_attrib := true }

/-- `Client::Impl::getDevInfo`: fail fast when not up; acquire a device,
propagating any acquisition failure with default content; an ATA device
delegates to `get_ata_information` whose error code and written content become
the response; a non-ATA device yields `UNSUPPORTEDDEVICETYPE`. -/
def getDevInfoT (c : Impl) (env : Env) (devname ty : String) :
    DevInfoResp × List CallTag :=
  if c.up = false then
    ({ err := CLIENTINITIALIZTIONFAILURE }, [])
  else
    match initDeviceT env devname ty with
    | (Except.error e, tr) => ({ err := e }, tr)
    | (Except.ok d, tr) =>
      if d.is_ata then
        let r := env.get_ata_information d ataoptsInfo
        ({ err := r.1, content := r.2 }, tr ++ [CallTag.isAtaCall, CallTag.ataInfoCall])
      else
        ({ err := UNSUPPORTEDDEVICETYPE }, tr ++ [CallTag.isAtaCall])

/-- `Client::Impl::getDevVendorAttrs`: same shape as `getDevInfo` with the
vendor-attribute option bundle and `get_ata_vendor_attr`. -/
def getDevVendorAttrsT (c : Impl) (env : Env) (devname ty : String) :
    DevVendorAttrsResp × List CallTag :=
  if c.up = false then
    ({ err := CLIENTINITIALIZTIONFAILURE }, [])
  else
    match initDeviceT env devname ty with
    | (Except.error e, tr) => ({ err := e }, tr)
    | (Except.ok d, tr) =>
      if d.is_ata then
        let r := env.get_ata_vendor_attr d ataoptsVendor
        ({ err := r.1, content := r.2 }, tr ++ [CallTag.isAtaCall, CallTag.ataVendorCall])
      else
        ({ err := UNSUPPORTEDDEVICETYPE }, tr ++ [CallTag.isAtaCall])

/-! Concrete environments used by witnesses and counterexamples. -/

/-- An environment where everything succeeds: the singleton comes up, every
name resolves to an open ATA device, and the ATA collaborators succeed. -/
def envBase : Env where
  smi_ok := true
  drive_db_ok := true
  get_smart_device := fun _ _ => some { is_open := true, is_ata := true }
  autodetect_open := fun d => d
  cant_id := fun _ => true
  get_ata_information := fun _ _ => (NOERR, [("model", "X")])
  get_ata_vendor_attr := fun _ _ => (NOERR, [[("id", "5")]])

/-- Like `envBase`, but `get_smart_device` resolves no name. -/
def envNoDev : Env :=
  { envBase with get_smart_device := fun _ _ => none }

/-- Like `envBase`, but every resolved device reports not-open after
`autodetect_open`. -/
def envOpenFail : Env :=
  { envBase with get_smart_device := fun _ _ => some { is_open := false, is_ata := true } }

/-- Like `envBase`, but every resolved device opens as a non-ATA device. -/
def envNonAta : Env :=
  { envBase with get_smart_device := fun _ _ => some { is_open := true, is_ata := false } }

/-- Like `envBase`, but the ATA information extractor writes content and then
reports `FAILEDSMARTCMD`. -/
def envInfoFail : Env :=
  { envBase with get_ata_information := fun _ _ => (FAILEDSMARTCMD, [("model", "X")]) }

/-- Like `envBase`, but the device-interface subsystem fails to register. -/
def envNoSmi : Env :=
  { envBase with smi_ok := false }

/-! Claim theorems. -/

/-- C1: when the client is up and device acquisition fails with
`DEVICEOPENERR` (a device object was obtained but reports not-open after the
auto-detecting open), `cantIdDev` returns the pair `(NOERR, true)`, and its
call trace is exactly the acquisition trace — no family dispatch and no
further collaborator call happens. -/
theorem cantIdDev_open_error_means_cannot_id (c : Impl) (env : Env)
    (devname ty : String) (tr : List CallTag) (hup : c.up = true)
    (hinit : initDeviceT env devname ty = (Except.error DEVICEOPENERR, tr)) :
    cantIdDevT c env devname ty = ({ err := NOERR, content := true }, tr) := by
  simp [cantIdDevT, hup, hinit]

/-- Witness for C1 at a concrete environment whose devices never open. -/
theorem cantIdDev_open_error_means_cannot_id_witness :
    cantIdDevT { up := true } envOpenFail "/dev/sda" "" =
      ({ err := NOERR, content := true },
       [CallTag.getDeviceCall "/dev/sda" none, CallTag.autodetectOpenCall]) :=
  cantIdDev_open_error_means_cannot_id { up := true } envOpenFail "/dev/sda" ""
    [CallTag.getDeviceCall "/dev/sda" none, CallTag.autodetectOpenCall] rfl rfl

/-- C2: when the readiness flag is not set, each of the three public
operations returns `CLIENTINITIALIZTIONFAILURE` with default content and an
empty call trace — the device acquirer is never invoked, so no `get_smart_device`
call and no open is made. -/
theorem not_up_fails_fast (c : Impl) (env : Env) (devname ty : String)
    (hup : c.up = false) :
    cantIdDevT c env devname ty =
        ({ err := CLIENTINITIALIZTIONFAILURE, content := false }, []) ∧
    getDevInfoT c env devname ty =
        ({ err := CLIENTINITIALIZTIONFAILURE, content := [] }, []) ∧
    getDevVendorAttrsT c env devname ty =
        ({ err := CLIENTINITIALIZTIONFAILURE, content := [] }, []) := by
  refine ⟨?_, ?_, ?_⟩ <;> simp [cantIdDevT, getDevInfoT, getDevVendorAttrsT, hup]

/-- Witness for C2 at a concrete not-up client. -/
theorem not_up_fails_fast_witness :
    cantIdDevT { up := false } envBase "/dev/sda" "sat" =
        ({ err := CLIENTINITIALIZTIONFAILURE, content := false }, []) ∧
    getDevInfoT { up := false } envBase "/dev/sda" "sat" =
        ({ err := CLIENTINITIALIZTIONFAILURE, content := [] }, []) ∧
    getDevVendorAttrsT { up := false } envBase "/dev/sda" "sat" =
        ({ err := CLIENTINITIALIZTIONFAILURE, content := [] }, []) :=
  not_up_fails_fast { up := false } envBase "/dev/sda" "sat" rfl

/-- C4: when the client is up, acquisition succeeds, and the acquired device
is ATA, `cantIdDev` returns `NOERR` with content exactly `cant_id` of that
device, with no transformation. -/
theorem cantIdDev_ata_passes_through (c : Impl) (env : Env)
    (devname ty : String) (d : Device) (tr : List CallTag) (hup : c.up = true)
    (hinit : initDeviceT env devname ty = (Except.ok d, tr))
    (hata : d.is_ata = true) :
    cantIdDevT c env devname ty =
      ({ err := NOERR, content := env.cant_id d },
       tr ++ [CallTag.isAtaCall, CallTag.cantIdCall]) := by
  simp [cantIdDevT, hup, hinit, hata]

/-- Witness for C4 at a concrete environment with an open ATA device. -/
theorem cantIdDev_ata_passes_through_witness :
    cantIdDevT { up := true } envBase "/dev/sda" "" =
      ({ err := NOERR,
         content := envBase.cant_id { is_open := true, is_ata := true } },
       [CallTag.getDeviceCall "/dev/sda" none, CallTag.autodetectOpenCall,
        CallTag.isAtaCall, CallTag.cantIdCall]) :=
  cantIdDev_ata_passes_through { up := true } envBase "/dev/sda" ""
    { is_open := true, is_ata := true }
    [CallTag.getDeviceCall "/dev/sda" none, CallTag.autodetectOpenCall] rfl rfl rfl

/-- C5: when the client is up, acquisition succeeds, and the acquired device
is not ATA, all three operations return `UNSUPPORTEDDEVICETYPE` with default
content; the trace beyond acquisition holds only the family check — no
`cant_id` call and no extractor call, so the result cannot depend on any
external collaborator's behavior. -/
theorem non_ata_unsupported (c : Impl) (env : Env) (devname ty : String)
    (d : Device) (tr : List CallTag) (hup : c.up = true)
    (hinit : initDeviceT env devname ty = (Except.ok d, tr))
    (hata : d.is_ata = false) :
    cantIdDevT c env devname ty =
        ({ err := UNSUPPORTEDDEVICETYPE, content := false },
         tr ++ [CallTag.isAtaCall]) ∧
    getDevInfoT c env devname ty =
        ({ err := UNSUPPORTEDDEVICETYPE, content := [] },
         tr ++ [CallTag.isAtaCall]) ∧
    getDevVendorAttrsT c env devname ty =
        ({ err := UNSUPPORTEDDEVICETYPE, content := [] },
         tr ++ [CallTag.isAtaCall]) := by
  refine ⟨?_, ?_, ?_⟩ <;>
    simp [cantIdDevT, getDevInfoT, getDevVendorAttrsT, hup, hinit, hata]

/-- Witness for C5 at a concrete environment whose devices open as non-ATA. -/
theorem non_ata_unsupported_witness :
    cantIdDevT { up := true } envNonAta "/dev/nvme0" "" =
        ({ err := UNSUPPORTEDDEVICETYPE, content := false },
         [CallTag.getDeviceCall "/dev/nvme0" none, CallTag.autodetectOpenCall,
          CallTag.isAtaCall]) ∧
    getDevInfoT { up := true } envNonAta "/dev/nvme0" "" =
        ({ err := UNSUPPORTEDDEVICETYPE, content := [] },
         [CallTag.getDeviceCall "/dev/nvme0" none, CallTag.autodetectOpenCall,
          CallTag.isAtaCall]) ∧
    getDevVendorAttrsT { up := true } envNonAta "/dev/nvme0" "" =
        ({ err := UNSUPPORTEDDEVICETYPE, content := [] },
         [CallTag.getDeviceCall "/dev/nvme0" none, CallTag.autodetectOpenCall,
          CallTag.isAtaCall]) :=
  non_ata_unsupported { up := true } envNonAta "/dev/nvme0" ""
    { is_open := true, is_ata := false }
    [CallTag.getDeviceCall "/dev/nvme0" none, CallTag.autodetectOpenCall] rfl rfl rfl

/-- C6: when the client is up and `get_smart_device` yields no device object
for the forwarded name and hint, each operation returns `GETDEVICERR` with
default content, and the trace holds only that one `get_smart_device` call —
no open is attempted. -/
theorem no_device_get_device_error (c : Impl) (env : Env) (devname ty : String)
    (hup : c.up = true)
    (hnone : env.get_smart_device devname (if ty ≠ "" then some ty else none) = none) :
    cantIdDevT c env devname ty =
        ({ err := GETDEVICERR, content := false },
         [CallTag.getDeviceCall devname (if ty ≠ "" then some ty else none)]) ∧
    getDevInfoT c env devname ty =
        ({ err := GETDEVICERR, content := [] },
         [CallTag.getDeviceCall devname (if ty ≠ "" then some ty else none)]) ∧
    getDevVendorAttrsT c env devname ty =
        ({ err := GETDEVICERR, content := [] },
         [CallTag.getDeviceCall devname (if ty ≠ "" then some ty else none)]) := by
  have hn : env.get_smart_device devname (if ty = "" then none else some ty) = none := by
    by_cases hty : ty = "" <;> simp [hty] at hnone ⊢ <;> exact hnone
  refine ⟨?_, ?_, ?_⟩ <;>
    simp [cantIdDevT, getDevInfoT, getDevVendorAttrsT, initDeviceT, hup, hn]

/-- Witness for C6 at a concrete environment resolving no device. -/
theorem no_device_get_device_error_witness :
    cantIdDevT { up := true } envNoDev "/dev/bad" "scsi" =
        ({ err := GETDEVICERR, content := false },
         [CallTag.getDeviceCall "/dev/bad" (some "scsi")]) ∧
    getDevInfoT { up := true } envNoDev "/dev/bad" "scsi" =
        ({ err := GETDEVICERR, content := [] },
         [CallTag.getDeviceCall "/dev/bad" (some "scsi")]) ∧
    getDevVendorAttrsT { up := true } envNoDev "/dev/bad" "scsi" =
        ({ err := GETDEVICERR, content := [] },
         [CallTag.getDeviceCall "/dev/bad" (some "scsi")]) := by
  have h := no_device_get_device_error { up := true } envNoDev "/dev/bad" "scsi"
    rfl rfl
  simpa using h

/-- C7: when the client is up and acquisition fails with `DEVICEOPENERR`,
`getDevInfo` and `getDevVendorAttrs` each return `DEVICEOPENERR` with default
content, and their trace is exactly the acquisition trace — the failure is
propagated verbatim and no family dispatch occurs. -/
theorem open_error_propagated (c : Impl) (env : Env) (devname ty : String)
    (tr : List CallTag) (hup : c.up = true)
    (hinit : initDeviceT env devname ty = (Except.error DEVICEOPENERR, tr)) :
    getDevInfoT c env devname ty = ({ err := DEVICEOPENERR, content := [] }, tr) ∧
    getDevVendorAttrsT c env devname ty =
        ({ err := DEVICEOPENERR, content := [] }, tr) := by
  refine ⟨?_, ?_⟩ <;> simp [getDevInfoT, getDevVendorAttrsT, hup, hinit]

/-- Witness for C7 at a concrete environment whose devices never open. -/
theorem open_error_propagated_witness :
    getDevInfoT { up := true } envOpenFail "/dev/sda" "" =
        ({ err := DEVICEOPENERR, content := [] },
         [CallTag.getDeviceCall "/dev/sda" none, CallTag.autodetectOpenCall]) ∧
    getDevVendorAttrsT { up := true } envOpenFail "/dev/sda" "" =
        ({ err := DEVICEOPENERR, content := [] },
         [CallTag.getDeviceCall "/dev/sda" none, CallTag.autodetectOpenCall]) :=
  open_error_propagated { up := true } envOpenFail "/dev/sda" ""
    [CallTag.getDeviceCall "/dev/sda" none, CallTag.autodetectOpenCall] rfl rfl

/-- C3 counterexample: with the client up and an open ATA device, an ATA
information extractor that writes `[("model", "X")]` into the content and then
returns `FAILEDSMARTCMD` makes `getDevInfo` return a non-`NOERR` code together
with non-default content — the code propagates the extractor's written content
verbatim rather than resetting it to the default. -/
theorem error_default_content_counterexample :
    (getDevInfoT { up := true } envInfoFail "/dev/sda" "").1.err ≠ NOERR ∧
    (getDevInfoT { up := true } envInfoFail "/dev/sda" "").1.content ≠ [] := by
  constructor <;> decide

/-- C3 amended: whenever a non-`NOERR` code is returned and the responsible
ATA extractor was not invoked, the content is the default (`cantIdDev`'s
content is `false` for every non-`NOERR` code, including in the
`DEVICEOPENERR` special case where the code returned is `NOERR`); when the
extractor is invoked, `getDevInfo` / `getDevVendorAttrs` carry the extractor's
error code and written content verbatim, so the content can be non-default
alongside a non-`NOERR` code. -/
theorem error_default_content_amended (c : Impl) (env : Env)
    (devname ty : String) :
    ((cantIdDevT c env devname ty).1.err ≠ NOERR →
      (cantIdDevT c env devname ty).1.content = false) ∧
    ((getDevInfoT c env devname ty).1.err ≠ NOERR →
      CallTag.ataInfoCall ∉ (getDevInfoT c env devname ty).2 →
      (getDevInfoT c env devname ty).1.content = []) ∧
    ((getDevVendorAttrsT c env devname ty).1.err ≠ NOERR →
      CallTag.ataVendorCall ∉ (getDevVendorAttrsT c env devname ty).2 →
      (getDevVendorAttrsT c env devname ty).1.content = []) ∧
    (∀ d tr, c.up = true → initDeviceT env devname ty = (Except.ok d, tr) →
      d.is_ata = true →
      (getDevInfoT c env devname ty).1 =
        { err := (env.get_ata_information d ataoptsInfo).1,
          content := (env.get_ata_information d ataoptsInfo).2 } ∧
      (getDevVendorAttrsT c env devname ty).1 =
        { err := (env.get_ata_vendor_attr d ataoptsVendor).1,
          content := (env.get_ata_vendor_attr d ataoptsVendor).2 }) := by
  by_cases hup : c.up = false
  · simp [cantIdDevT, getDevInfoT, getDevVendorAttrsT, hup]
  · have hup2 : c.up = true := by simpa using hup
    rcases hInit : initDeviceT env devname ty with ⟨res, tr⟩
    cases res with
    | error e =>
      cases e <;>
        simp [cantIdDevT, getDevInfoT, getDevVendorAttrsT, hup2, hInit]
    | ok d =>
      by_cases hata : d.is_ata = true
      · simp [cantIdDevT, getDevInfoT, getDevVendorAttrsT, hup2, hInit, hata]
      · simp only [Bool.not_eq_true] at hata
        simp [cantIdDevT, getDevInfoT, getDevVendorAttrsT, hup2, hInit, hata]

/-- Witness for C3's amended claim: content stays default on an acquisition
failure, and the extractor's pair is carried verbatim on the ATA path. -/
theorem error_default_content_amended_witness :
    (cantIdDevT { up := true } envNoDev "/dev/sdb" "").1.content = false ∧
    (getDevInfoT { up := true } envInfoFail "/dev/sda" "").1 =
      { err := FAILEDSMARTCMD, content := [("model", "X")] } := by
  constructor
  · exact (error_default_content_amended { up := true } envNoDev "/dev/sdb" "").1
      (by decide)
  · have h := ((error_default_content_amended { up := true } envInfoFail
        "/dev/sda" "").2.2.2 { is_open := true, is_ata := true }
        [CallTag.getDeviceCall "/dev/sda" none, CallTag.autodetectOpenCall]
        rfl rfl rfl).1
    simpa using h

/-- C8: in the singleton constructor, the drive-database step runs strictly
after the interface step and only when the interface registered; a failed
interface step leaves the runtime not-ready with the database step never run;
a failed database step leaves the runtime not-ready; readiness holds exactly
when both steps succeed. -/
theorem init_db_after_interface (env : Env) :
    (env.smi_ok = false →
      (implCtorT env).1.up = false ∧
      (implCtorT env).2 =
        [InitStep.checkConfigStep, InitStep.smartInterfaceInitStep]) ∧
    (env.smi_ok = true → env.drive_db_ok = false →
      (implCtorT env).1.up = false) ∧
    ((implCtorT env).1.up = true ↔
      env.smi_ok = true ∧ env.drive_db_ok = true) ∧
    (InitStep.driveDbInitStep ∈ (implCtorT env).2 →
      (implCtorT env).2 =
        [InitStep.checkConfigStep, InitStep.smartInterfaceInitStep,
         InitStep.driveDbInitStep]) := by
  cases hs : env.smi_ok <;> cases hd : env.drive_db_ok <;>
    simp [implCtorT, hs, hd]

/-- Witness for C8: a failed interface step ends not-ready without ever
reaching the database step. -/
theorem init_db_after_interface_witness :
    (implCtorT envNoSmi).1.up = false ∧
    (implCtorT envNoSmi).2 =
      [InitStep.checkConfigStep, InitStep.smartInterfaceInitStep] :=
  (init_db_after_interface envNoSmi).1 rfl

/-- C9: the catalog yields a non-empty description for every member of the
closed `ctlerr_t` enumeration, and at a raw value that is the code of no
member the lookup takes the error branch (`std::map::at` throws, modelled as
`none`) rather than returning a default string. -/
theorem errStr_exhaustive_and_strict :
    (∀ e : ctlerr_t, ∃ s : String, errStr e = some s ∧ s.length ≠ 0) ∧
    (∀ n : Nat, (∀ e : ctlerr_t, ctlerrCode e ≠ n) → errStrAt n = none) := by
  constructor
  · intro e
    cases e <;> exact ⟨_, rfl, by decide⟩
  · intro n h
    unfold errStrAt
    have hfind : errs.find? (fun p => ctlerrCode p.1 == n) = none := by
      apply List.find?_eq_none.mpr
      intro p _
      simpa using h p.1
    rw [hfind]
    rfl

/-- Witness for C9: the raw value 42 codes no enumeration member and the
lookup takes the error branch. -/
theorem errStr_exhaustive_and_strict_witness : errStrAt 42 = none :=
  errStr_exhaustive_and_strict.2 42 (by decide)

/-- C10: the device name — empty or not — is forwarded unchanged as the first
argument of the one `get_smart_device` call, with the type hint forwarded when
non-empty and the auto-detect request (`none`) when empty; and the only error
codes acquisition can produce are `GETDEVICERR` and `DEVICEOPENERR` — there is
no invalid-argument error code. -/
theorem devname_forwarded_unvalidated (env : Env) (devname ty : String) :
    (initDeviceT env devname ty).2.head? =
      some (CallTag.getDeviceCall devname (if ty ≠ "" then some ty else none)) ∧
    (∀ e : ctlerr_t, (initDeviceT env devname ty).1 = Except.error e →
      e = GETDEVICERR ∨ e = DEVICEOPENERR) := by
  by_cases hty : ty = ""
  · subst hty
    cases hdev : env.get_smart_device devname none with
    | none =>
      refine ⟨?_, ?_⟩ <;> simp [initDeviceT, hdev]
    | some d0 =>
      by_cases hopen : (env.autodetect_open d0).is_open = false <;>
        refine ⟨?_, ?_⟩ <;> simp_all [initDeviceT, hdev, hopen]
  · cases hdev : env.get_smart_device devname (some ty) with
    | none =>
      refine ⟨?_, ?_⟩ <;> simp [initDeviceT, hty, hdev]
    | some d0 =>
      by_cases hopen : (env.autodetect_open d0).is_open = false <;>
        refine ⟨?_, ?_⟩ <;> simp_all [initDeviceT, hty, hdev, hopen]

/-- Witness for C10 at the empty device name: the name is forwarded as given
with the auto-detect hint, and the failure observed is `GETDEVICERR`. -/
theorem devname_forwarded_unvalidated_witness :
    (initDeviceT envNoDev "" "").2.head? = some (CallTag.getDeviceCall "" none) ∧
    (GETDEVICERR = GETDEVICERR ∨ GETDEVICERR = DEVICEOPENERR) :=
  ⟨(devname_forwarded_unvalidated envNoDev "" "").1,
   (devname_forwarded_unvalidated envNoDev "" "").2 GETDEVICERR rfl⟩
